import Mathlib

/-!
Shallow embedding of the browser-side synchronization layer in
`static/js/main.js` (status normalization, search request lifecycle,
catalog sorting/paging, runtime backfill, polling scheduler), together
with proofs settling the specification claims.

JavaScript dynamic values are modelled by the inductive `JSValue`;
JavaScript numbers by `JSNumber`, where every non-finite result (NaN and
the infinities, which `Number.isFinite` treats alike) is collapsed into
`JSNumber.nan`.  The `Number(...)` coercion is modelled by
`JSValue.toNumber`; its string case models plain signed decimal literals
(hexadecimal, exponent and Infinity literals are not modelled, and a
non-empty array coerces to NaN rather than through a string join — no
claim depends on those forms).
-/

set_option maxHeartbeats 1000000

/-- A JavaScript number: either a finite value (modelled as a rational)
or a non-finite value (`NaN` or an infinity, which `Number.isFinite`
rejects alike). -/
inductive JSNumber where
  | finite (q : ℚ)
  | nan
deriving DecidableEq, Repr

/-- Model of `Number.isFinite`. -/
def JSNumber.isFinite : JSNumber → Bool
  | .finite _ => true
  | .nan => false

/-- A JavaScript runtime value (functions and symbols are not modelled;
objects are modelled as ordered key/value field lists). -/
inductive JSValue where
  | null
  | undef
  | bool (b : Bool)
  | num (n : JSNumber)
  | str (s : String)
  | arr (elems : List JSValue)
  | obj (fields : List (String × JSValue))

/-- A JavaScript object, as its ordered list of own fields. -/
def JSObj := List (String × JSValue)

/-- Whether every character of the list is a decimal digit. -/
def allDigits (cs : List Char) : Bool := cs.all (·.isDigit)

/-- Value of a list of decimal digits. -/
def digitsVal (cs : List Char) : ℕ :=
  cs.foldl (fun a c => a * 10 + (c.toNat - 48)) 0

/-- Strip leading and trailing whitespace (model of `String.prototype.trim`,
which the source applies via `.trim()`). -/
def trimChars (cs : List Char) : List Char :=
  ((cs.dropWhile Char.isWhitespace).reverse.dropWhile Char.isWhitespace).reverse

/-- Model of `s.trim()` as a string-to-string function. -/
def trimString (s : String) : String := String.mk (trimChars s.data)

/-- Split a character list at every dot, keeping empty segments. -/
def splitDots : List Char → List (List Char)
  | [] => [[]]
  | c :: rest =>
      match splitDots rest with
      | [] => if c = '.' then [[], []] else [[c]]
      | g :: gs => if c = '.' then [] :: g :: gs else (c :: g) :: gs

/-- Parse an unsigned decimal literal (`"12"`, `"12.5"`, `".5"`, `"12."`). -/
def parseUnsignedDecimal (cs : List Char) : Option ℚ :=
  match splitDots cs with
  | [a] =>
      if a ≠ [] ∧ allDigits a then some (digitsVal a) else none
  | [a, b] =>
      if (a ≠ [] ∨ b ≠ []) ∧ allDigits a ∧ allDigits b then
        some ((digitsVal a : ℚ) + (digitsVal b : ℚ) / (10 : ℚ) ^ b.length)
      else none
  | _ => none

/-- Model of string-to-number coercion: trimmed; empty means `0`;
otherwise an optionally signed decimal literal, else NaN. -/
def strToNumber (s : String) : JSNumber :=
  match trimChars s.data with
  | [] => .finite 0
  | '+' :: rest =>
      match parseUnsignedDecimal rest with
      | some q => .finite q
      | none => .nan
  | '-' :: rest =>
      match parseUnsignedDecimal rest with
      | some q => .finite (-q)
      | none => .nan
  | cs =>
      match parseUnsignedDecimal cs with
      | some q => .finite q
      | none => .nan

/-- Model of the ECMAScript `Number(...)` coercion on the value forms
used by the program. -/
def JSValue.toNumber : JSValue → JSNumber
  | .null => .finite 0
  | .undef => .nan
  | .bool b => .finite (if b then 1 else 0)
  | .num n => n
  | .str s => strToNumber s
  | .arr [] => .finite 0
  | .arr (_ :: _) => .nan
  | .obj _ => .nan

/-- Model of JavaScript truthiness (`Boolean(v)`). -/
def JSValue.toBool : JSValue → Bool
  | .null => false
  | .undef => false
  | .bool b => b
  | .num (.finite q) => decide (q ≠ 0)
  | .num .nan => false
  | .str s => decide (s ≠ "")
  | .arr _ => true
  | .obj _ => true

/-- Property read `o[k]` on an object field list: first binding wins,
absent keys read as `undefined`. -/
def objGet : JSObj → String → JSValue
  | [], _ => (.undef)
  | (k', v') :: rest, k => if k' = k then v' else objGet rest k

/-- Property write `o[k] = v`: replaces the first binding for `k`, or
appends a new binding. -/
def objSet : JSObj → String → JSValue → JSObj
  | [], k, v => [(k, v)]
  | (k', v') :: rest, k, v =>
      if k' = k then (k, v) :: rest else (k', v') :: objSet rest k v

/-- `Object.assign(dst, src)`: copy each own field of `src` onto `dst`
in order. -/
def objAssign (dst : JSObj) (src : JSObj) : JSObj :=
  src.foldl (fun acc kv => objSet acc kv.1 kv.2) dst

/-- Property access `v.k` on an arbitrary value: objects read their
field list, everything else reads `undefined` (the guarded call sites
never dereference `null`/`undefined`). -/
def jsMember : JSValue → String → JSValue
  | .obj fs, k => objGet fs k
  | _, _ => (.undef)

/-- The own enumerable fields `Object.assign` copies from a raw value
that passes the guard `raw && typeof raw === 'object'`: an object
contributes its fields, an array its index keys, anything else nothing. -/
def rawFields : JSValue → JSObj
  | .obj fs => fs
  | .arr es => (es.enum).map (fun p => (toString p.1, p.2))
  | _ => []

/-- The `base` defaults object of `normalizeScraperStatus`. -/
def scraperStatusBase (provider : String) : JSObj :=
  [ ("provider", .str provider)
  , ("provider_label", .str "")
  , ("running", .bool false)
  , ("start_page", .null)
  , ("current_page", .null)
  , ("next_page", .null)
  , ("last_page", .null)
  , ("processed_pages", .num (.finite 0))
  , ("total_pages", .num (.finite 0))
  , ("processed_links", .num (.finite 0))
  , ("last_title", .str "")
  , ("message", .str "Bereit.")
  , ("error", .null)
  , ("started_at", .null)
  , ("finished_at", .null)
  , ("last_update", .null)
  , ("progress", .num (.finite 0))
  , ("progress_mode", .str "idle")
  , ("log", .arr []) ]

/-- The eight keys of the `numericFields` array, in source order. -/
def numericFields : List String :=
  [ "start_page", "current_page", "processed_pages", "total_pages"
  , "processed_links", "progress", "next_page", "last_page" ]

/-- The field fixups of `normalizeScraperStatus` applied to the object
obtained by spreading `base` and assigning `raw` onto it (source lines
818 to 842). -/
def normalizeStatusFixups (status0 : JSObj) (provider : String) : JSObj :=
  let status1 := objSet status0 "provider"
    (match objGet status0 "provider" with
     | .str s => if s ≠ "" then .str s else .str provider
     | _ => .str provider)
  let status2 := objSet status1 "provider_label"
    (match objGet status1 "provider_label" with
     | .str s => if s ≠ "" then .str s else objGet status1 "provider"
     | _ => objGet status1 "provider")
  let status3 := numericFields.foldl
    (fun st key =>
      objSet st key
        (match (objGet st key).toNumber with
         | .finite q => .num (.finite q)
         | .nan => objGet (scraperStatusBase provider) key))
    status2
  let status4 := objSet status3 "running" (.bool (objGet status3 "running").toBool)
  let status5 := objSet status4 "log"
    (match objGet status4 "log" with
     | .arr es => .arr (es.filter (·.toBool))
     | _ => .arr [])
  let status6 := objSet status5 "message"
    (match objGet status5 "message" with
     | .str s => if trimString s ≠ "" then .str s else .str "Bereit."
     | _ => .str "Bereit.")
  let status7 := objSet status6 "last_title"
    (match objGet status6 "last_title" with
     | .str s => if trimString s ≠ "" then .str s else .str ""
     | _ => .str "")
  let status8 := objSet status7 "error"
    (match objGet status7 "error" with
     | .str s => if trimString s ≠ "" then .str s else .null
     | _ => .null)
  let status9 := objSet status8 "progress_mode"
    (match objGet status8 "progress_mode" with
     | .str s => .str s
     | _ => .str "idle")
  status9

/-- Embedding of `normalizeScraperStatus(raw, provider)`: spread the
`base` defaults, `Object.assign` the raw fields over them when `raw` is
a non-null object, then apply the field fixups. -/
def normalizeScraperStatus (raw : JSValue) (provider : String) : JSObj :=
  normalizeStatusFixups (objAssign (scraperStatusBase provider) (rawFields raw)) provider

theorem objGet_objSet (o : JSObj) (k k' : String) (v : JSValue) :
    objGet (objSet o k v) k' = if k = k' then v else objGet o k' := by
  induction o with
  | nil =>
      by_cases h : k = k' <;> simp [objSet, objGet, h]
  | cons hd tl ih =>
      obtain ⟨k0, v0⟩ := hd
      by_cases h0 : k0 = k
      · subst h0
        by_cases h : k0 = k' <;> simp [objSet, objGet, h]
      · by_cases h : k0 = k'
        · subst h
          simp [objSet, objGet, h0]
          rw [if_neg (fun hkk => h0 hkk.symm)]
        · simp [objSet, objGet, h0, h, ih]

theorem objGet_of_not_mem_keys (o : JSObj) (k : String) (h : k ∉ o.map Prod.fst) :
    objGet o k = .undef := by
  induction o with
  | nil => rfl
  | cons hd tl ih =>
      obtain ⟨k0, v0⟩ := hd
      simp only [List.map_cons, List.mem_cons] at h
      push_neg at h
      simp only [objGet]
      rw [if_neg (fun he => h.1 he.symm)]
      exact ih h.2

theorem objGet_objAssign_of_not_mem (dst src : JSObj) (k : String)
    (h : k ∉ src.map Prod.fst) : objGet (objAssign dst src) k = objGet dst k := by
  induction src generalizing dst with
  | nil => rfl
  | cons hd tl ih =>
      obtain ⟨k0, v0⟩ := hd
      simp only [List.map_cons, List.mem_cons] at h
      push_neg at h
      simp only [objAssign, List.foldl_cons]
      rw [show (List.foldl (fun acc kv => objSet acc kv.1 kv.2) (objSet dst k0 v0) tl : JSObj)
            = objAssign (objSet dst k0 v0) tl from rfl]
      rw [ih _ h.2, objGet_objSet]
      rw [if_neg (fun he => h.1 he.symm)]

theorem objGet_objAssign_of_nodup (dst src : JSObj) (k : String)
    (hnd : (src.map Prod.fst).Nodup) (hmem : k ∈ src.map Prod.fst) :
    objGet (objAssign dst src) k = objGet src k := by
  induction src generalizing dst with
  | nil => simp at hmem
  | cons hd tl ih =>
      obtain ⟨k0, v0⟩ := hd
      simp only [List.map_cons, List.nodup_cons] at hnd
      simp only [objAssign, List.foldl_cons]
      rw [show (List.foldl (fun acc kv => objSet acc kv.1 kv.2) (objSet dst k0 v0) tl : JSObj)
            = objAssign (objSet dst k0 v0) tl from rfl]
      rcases List.mem_cons.mp hmem with he | hmem2
      · have htl : k ∉ tl.map Prod.fst := by rw [he]; exact hnd.1
        rw [objGet_objAssign_of_not_mem _ _ _ htl, objGet_objSet, if_pos he.symm]
        simp only [objGet]
        rw [if_pos he.symm]
      · rw [ih _ hnd.2 hmem2]
        have hne : k0 ≠ k := by
          intro he2
          exact hnd.1 (he2 ▸ hmem2)
        simp only [objGet]
        rw [if_neg hne]

/-- The nineteen documented fields of a normalized scraper status (the
keys of `base` in `normalizeScraperStatus`). -/
def documentedStatusKeys : List String :=
  [ "provider", "provider_label", "running", "start_page", "current_page"
  , "next_page", "last_page", "processed_pages", "total_pages", "processed_links"
  , "last_title", "message", "error", "started_at", "finished_at", "last_update"
  , "progress", "progress_mode", "log" ]

theorem scraperStatusBase_keys (p : String) :
    (scraperStatusBase p).map Prod.fst = documentedStatusKeys := rfl

theorem fixups_start_page (o : JSObj) (p : String) :
    objGet (normalizeStatusFixups o p) "start_page" =
      (match (objGet o "start_page").toNumber with
       | .finite q => JSValue.num (.finite q)
       | .nan => JSValue.null) := by
  simp [normalizeStatusFixups, numericFields, objGet_objSet, scraperStatusBase, objGet]

theorem fixups_current_page (o : JSObj) (p : String) :
    objGet (normalizeStatusFixups o p) "current_page" =
      (match (objGet o "current_page").toNumber with
       | .finite q => JSValue.num (.finite q)
       | .nan => JSValue.null) := by
  simp [normalizeStatusFixups, numericFields, objGet_objSet, scraperStatusBase, objGet]

theorem fixups_next_page (o : JSObj) (p : String) :
    objGet (normalizeStatusFixups o p) "next_page" =
      (match (objGet o "next_page").toNumber with
       | .finite q => JSValue.num (.finite q)
       | .nan => JSValue.null) := by
  simp [normalizeStatusFixups, numericFields, objGet_objSet, scraperStatusBase, objGet]

theorem fixups_last_page (o : JSObj) (p : String) :
    objGet (normalizeStatusFixups o p) "last_page" =
      (match (objGet o "last_page").toNumber with
       | .finite q => JSValue.num (.finite q)
       | .nan => JSValue.null) := by
  simp [normalizeStatusFixups, numericFields, objGet_objSet, scraperStatusBase, objGet]

theorem fixups_processed_pages (o : JSObj) (p : String) :
    objGet (normalizeStatusFixups o p) "processed_pages" =
      (match (objGet o "processed_pages").toNumber with
       | .finite q => JSValue.num (.finite q)
       | .nan => JSValue.num (.finite 0)) := by
  simp [normalizeStatusFixups, numericFields, objGet_objSet, scraperStatusBase, objGet]

theorem fixups_total_pages (o : JSObj) (p : String) :
    objGet (normalizeStatusFixups o p) "total_pages" =
      (match (objGet o "total_pages").toNumber with
       | .finite q => JSValue.num (.finite q)
       | .nan => JSValue.num (.finite 0)) := by
  simp [normalizeStatusFixups, numericFields, objGet_objSet, scraperStatusBase, objGet]

theorem fixups_processed_links (o : JSObj) (p : String) :
    objGet (normalizeStatusFixups o p) "processed_links" =
      (match (objGet o "processed_links").toNumber with
       | .finite q => JSValue.num (.finite q)
       | .nan => JSValue.num (.finite 0)) := by
  simp [normalizeStatusFixups, numericFields, objGet_objSet, scraperStatusBase, objGet]

theorem fixups_progress (o : JSObj) (p : String) :
    objGet (normalizeStatusFixups o p) "progress" =
      (match (objGet o "progress").toNumber with
       | .finite q => JSValue.num (.finite q)
       | .nan => JSValue.num (.finite 0)) := by
  simp [normalizeStatusFixups, numericFields, objGet_objSet, scraperStatusBase, objGet]

theorem fixups_message (o : JSObj) (p : String) :
    objGet (normalizeStatusFixups o p) "message" =
      (match objGet o "message" with
       | .str s => if trimString s ≠ "" then JSValue.str s else .str "Bereit."
       | _ => JSValue.str "Bereit.") := by
  simp [normalizeStatusFixups, numericFields, objGet_objSet, scraperStatusBase, objGet]

theorem fixups_log (o : JSObj) (p : String) :
    objGet (normalizeStatusFixups o p) "log" =
      (match objGet o "log" with
       | .arr es => JSValue.arr (es.filter JSValue.toBool)
       | _ => JSValue.arr []) := by
  simp [normalizeStatusFixups, numericFields, objGet_objSet, scraperStatusBase, objGet]

theorem fixups_error (o : JSObj) (p : String) :
    objGet (normalizeStatusFixups o p) "error" =
      (match objGet o "error" with
       | .str s => if trimString s ≠ "" then JSValue.str s else .null
       | _ => JSValue.null) := by
  simp [normalizeStatusFixups, numericFields, objGet_objSet, scraperStatusBase, objGet]

theorem fixups_unknown_key (o : JSObj) (p k : String) (h : k ∉ documentedStatusKeys) :
    objGet (normalizeStatusFixups o p) k = objGet o k := by
  simp only [documentedStatusKeys, List.mem_cons, List.not_mem_nil, or_false] at h
  push_neg at h
  obtain ⟨e1, e2, e3, e4, e5, e6, e7, e8, e9, e10, e11, e12, e13, e14, e15, e16, e17, e18, e19⟩ := h
  simp [normalizeStatusFixups, numericFields, objGet_objSet,
    Ne.symm e1, Ne.symm e2, Ne.symm e3, Ne.symm e4, Ne.symm e5, Ne.symm e6, Ne.symm e7,
    Ne.symm e8, Ne.symm e9, Ne.symm e10, Ne.symm e11, Ne.symm e12, Ne.symm e13,
    Ne.symm e17, Ne.symm e18, Ne.symm e19]

/-- The JavaScript comparison `v > 0` (numeric coercion; NaN compares
false). -/
def jsGreaterThanZero (v : JSValue) : Bool :=
  match v.toNumber with
  | .finite q => decide (0 < q)
  | .nan => false

/-- The progress-mode expression of `updateSingleScraperUI` (source line
1010): `status.progress_mode || (status.total_pages > 0 ? 'determinate'
: status.running ? 'indeterminate' : 'idle')`. -/
def uiProgressMode (status : JSObj) : JSValue :=
  if (objGet status "progress_mode").toBool then objGet status "progress_mode"
  else if jsGreaterThanZero (objGet status "total_pages") then .str "determinate"
  else if (objGet status "running").toBool then .str "indeterminate"
  else .str "idle"

/-- The start-button update of `updateSingleScraperUI` (source line
1080): `controller.startButton.disabled = status.running`, coerced to a
boolean by the DOM property. -/
def startButtonDisabled (status : JSObj) : Bool :=
  (objGet status "running").toBool

/-- `Object.keys(v)` for the value forms used by the program. -/
def jsKeys : JSValue → List String
  | .obj fs => fs.map Prod.fst
  | .arr es => (es.enum).map (fun pr => toString pr.1)
  | _ => []

/-- Embedding of `normalizeScraperStatuses(rawStatuses)`: one normalized
status per registered provider (defaults applying when the map has no
entry), plus normalized entries for unregistered providers present in
the raw map. -/
def normalizeScraperStatuses (registered : List String) (rawStatuses : JSValue) :
    List (String × JSObj) :=
  let init := registered.map (fun p => (p, normalizeScraperStatus (jsMember rawStatuses p) p))
  (jsKeys rawStatuses).foldl
    (fun acc p =>
      if (acc.map Prod.fst).contains p then acc
      else acc ++ [(p, normalizeScraperStatus (jsMember rawStatuses p) p)])
    init

/-- Read one provider's entry out of a normalized status map. -/
def statusLookup (m : List (String × JSObj)) (p : String) : JSObj :=
  ((m.find? (fun kv => kv.1 = p)).map Prod.snd).getD []

/-- C1 counterexample: `normalizeScraperStatus(null, "kinox")` yields
`start_page = 0`, not the documented default `null` — `Number(null)`
is the finite number `0`, so an absent page cursor is coerced to `0`
by the numeric-field pass rather than left at its `null` default. -/
theorem normalize_absent_cursor_cex :
    objGet (normalizeScraperStatus .null "kinox") "start_page" = .num (.finite 0) ∧
      JSValue.num (.finite 0) ≠ JSValue.null :=
  ⟨by rw [normalizeScraperStatus, fixups_start_page]; rfl, fun h => JSValue.noConfusion h⟩

/-- C1 (amended): `normalizeScraperStatus` is total and for every input
each of the eight numeric fields is a finite number or (for the four
page cursors only) `null` — never `NaN` or `undefined`; `message` is
always a string with non-blank trim, `log` an array, `error` `null` or a
non-blank string.  For an entirely absent input (`null` raw) the four
page cursors are `0` — not `null`, because `Number(null)` is the finite
`0` — the counters and `progress` are `0`, `message` is `"Bereit."`,
`log` is the empty list and `error` is `null`; a page cursor falls back
to `null` exactly for supplied values whose numeric coercion is
non-finite, e.g. a non-numeric string. -/
theorem normalize_defaults_amended (raw : JSValue) (p : String) :
    (objGet (normalizeScraperStatus raw p) "start_page" = .null ∨
      ∃ q, objGet (normalizeScraperStatus raw p) "start_page" = .num (.finite q)) ∧
    (objGet (normalizeScraperStatus raw p) "current_page" = .null ∨
      ∃ q, objGet (normalizeScraperStatus raw p) "current_page" = .num (.finite q)) ∧
    (objGet (normalizeScraperStatus raw p) "next_page" = .null ∨
      ∃ q, objGet (normalizeScraperStatus raw p) "next_page" = .num (.finite q)) ∧
    (objGet (normalizeScraperStatus raw p) "last_page" = .null ∨
      ∃ q, objGet (normalizeScraperStatus raw p) "last_page" = .num (.finite q)) ∧
    (∃ q, objGet (normalizeScraperStatus raw p) "processed_pages" = .num (.finite q)) ∧
    (∃ q, objGet (normalizeScraperStatus raw p) "total_pages" = .num (.finite q)) ∧
    (∃ q, objGet (normalizeScraperStatus raw p) "processed_links" = .num (.finite q)) ∧
    (∃ q, objGet (normalizeScraperStatus raw p) "progress" = .num (.finite q)) ∧
    (∃ t, objGet (normalizeScraperStatus raw p) "message" = .str t ∧ trimString t ≠ "") ∧
    (∃ es, objGet (normalizeScraperStatus raw p) "log" = .arr es) ∧
    (objGet (normalizeScraperStatus raw p) "error" = .null ∨
      ∃ t, objGet (normalizeScraperStatus raw p) "error" = .str t ∧ trimString t ≠ "") ∧
    objGet (normalizeScraperStatus .null p) "start_page" = .num (.finite 0) ∧
    objGet (normalizeScraperStatus .null p) "current_page" = .num (.finite 0) ∧
    objGet (normalizeScraperStatus .null p) "next_page" = .num (.finite 0) ∧
    objGet (normalizeScraperStatus .null p) "last_page" = .num (.finite 0) ∧
    objGet (normalizeScraperStatus .null p) "processed_pages" = .num (.finite 0) ∧
    objGet (normalizeScraperStatus .null p) "total_pages" = .num (.finite 0) ∧
    objGet (normalizeScraperStatus .null p) "processed_links" = .num (.finite 0) ∧
    objGet (normalizeScraperStatus .null p) "progress" = .num (.finite 0) ∧
    objGet (normalizeScraperStatus .null p) "message" = .str "Bereit." ∧
    objGet (normalizeScraperStatus .null p) "log" = .arr [] ∧
    objGet (normalizeScraperStatus .null p) "error" = .null ∧
    objGet (normalizeScraperStatus (.obj [("next_page", .str "soon")]) p) "next_page" = .null := by
  refine ⟨?_, ?_, ?_, ?_, ?_, ?_, ?_, ?_, ?_, ?_, ?_,
    ?_, ?_, ?_, ?_, ?_, ?_, ?_, ?_, ?_, ?_, ?_, ?_⟩
  · rw [normalizeScraperStatus, fixups_start_page]
    rcases (objGet (objAssign (scraperStatusBase p) (rawFields raw)) "start_page").toNumber with q | _
    · exact Or.inr ⟨q, rfl⟩
    · exact Or.inl rfl
  · rw [normalizeScraperStatus, fixups_current_page]
    rcases (objGet (objAssign (scraperStatusBase p) (rawFields raw)) "current_page").toNumber with q | _
    · exact Or.inr ⟨q, rfl⟩
    · exact Or.inl rfl
  · rw [normalizeScraperStatus, fixups_next_page]
    rcases (objGet (objAssign (scraperStatusBase p) (rawFields raw)) "next_page").toNumber with q | _
    · exact Or.inr ⟨q, rfl⟩
    · exact Or.inl rfl
  · rw [normalizeScraperStatus, fixups_last_page]
    rcases (objGet (objAssign (scraperStatusBase p) (rawFields raw)) "last_page").toNumber with q | _
    · exact Or.inr ⟨q, rfl⟩
    · exact Or.inl rfl
  · rw [normalizeScraperStatus, fixups_processed_pages]
    rcases (objGet (objAssign (scraperStatusBase p) (rawFields raw)) "processed_pages").toNumber with q | _
    · exact ⟨q, rfl⟩
    · exact ⟨0, rfl⟩
  · rw [normalizeScraperStatus, fixups_total_pages]
    rcases (objGet (objAssign (scraperStatusBase p) (rawFields raw)) "total_pages").toNumber with q | _
    · exact ⟨q, rfl⟩
    · exact ⟨0, rfl⟩
  · rw [normalizeScraperStatus, fixups_processed_links]
    rcases (objGet (objAssign (scraperStatusBase p) (rawFields raw)) "processed_links").toNumber with q | _
    · exact ⟨q, rfl⟩
    · exact ⟨0, rfl⟩
  · rw [normalizeScraperStatus, fixups_progress]
    rcases (objGet (objAssign (scraperStatusBase p) (rawFields raw)) "progress").toNumber with q | _
    · exact ⟨q, rfl⟩
    · exact ⟨0, rfl⟩
  · rw [normalizeScraperStatus, fixups_message]
    rcases objGet (objAssign (scraperStatusBase p) (rawFields raw)) "message" with _ | _ | b | n | s | es | fs
    case str =>
      by_cases hs : trimString s = ""
      · exact ⟨"Bereit.", by simp [hs], by decide⟩
      · exact ⟨s, by simp [hs], hs⟩
    all_goals exact ⟨"Bereit.", rfl, by decide⟩
  · rw [normalizeScraperStatus, fixups_log]
    rcases objGet (objAssign (scraperStatusBase p) (rawFields raw)) "log" with _ | _ | b | n | s | es | fs
    case arr => exact ⟨es.filter JSValue.toBool, rfl⟩
    all_goals exact ⟨[], rfl⟩
  · rw [normalizeScraperStatus, fixups_error]
    rcases objGet (objAssign (scraperStatusBase p) (rawFields raw)) "error" with _ | _ | b | n | s | es | fs
    case str =>
      by_cases hs : trimString s = ""
      · exact Or.inl (by simp [hs])
      · exact Or.inr ⟨s, by simp [hs], hs⟩
    all_goals exact Or.inl rfl
  · rw [normalizeScraperStatus, fixups_start_page]; rfl
  · rw [normalizeScraperStatus, fixups_current_page]; rfl
  · rw [normalizeScraperStatus, fixups_next_page]; rfl
  · rw [normalizeScraperStatus, fixups_last_page]; rfl
  · rw [normalizeScraperStatus, fixups_processed_pages]; rfl
  · rw [normalizeScraperStatus, fixups_total_pages]; rfl
  · rw [normalizeScraperStatus, fixups_processed_links]; rfl
  · rw [normalizeScraperStatus, fixups_progress]; rfl
  · rw [normalizeScraperStatus, fixups_message]; rfl
  · rw [normalizeScraperStatus, fixups_log]; rfl
  · rw [normalizeScraperStatus, fixups_error]; rfl
  · rw [normalizeScraperStatus, fixups_next_page]; rfl

/-- C7 counterexample: the unknown key `foo` of the raw payload appears
in the normalized status with its raw value (`Object.assign` copies
every own key of `raw` onto the result and nothing removes the unknown
ones), contradicting the claim that the result contains exactly the
documented fields. -/
theorem normalize_extra_key_cex :
    objGet (normalizeScraperStatus (.obj [("foo", .num (.finite 1))]) "kinox") "foo"
        = .num (.finite 1) ∧
      JSValue.num (.finite 1) ≠ JSValue.undef := by
  constructor
  · rw [normalizeScraperStatus, fixups_unknown_key _ _ _ (by decide)]
    rfl
  · exact fun h => JSValue.noConfusion h

/-- C7 (amended): unknown keys of the raw object are not dropped by
`normalizeScraperStatus` — they pass through to the returned record
unchanged (the field fixups touch only documented keys), so the result
contains the documented fields plus every unknown raw key. -/
theorem normalize_unknown_keys_passthrough (fs : JSObj) (p k : String)
    (hnd : (fs.map Prod.fst).Nodup) (hk : k ∉ documentedStatusKeys) :
    objGet (normalizeScraperStatus (.obj fs) p) k = objGet fs k := by
  rw [normalizeScraperStatus, fixups_unknown_key _ _ _ hk]
  show objGet (objAssign (scraperStatusBase p) fs) k = objGet fs k
  by_cases hmem : k ∈ fs.map Prod.fst
  · exact objGet_objAssign_of_nodup _ _ _ hnd hmem
  · rw [objGet_objAssign_of_not_mem _ _ _ hmem, objGet_of_not_mem_keys fs _ hmem,
      objGet_of_not_mem_keys]
    rw [scraperStatusBase_keys]
    exact hk

/-- Witness for the C7 amended theorem at the concrete raw object with
the single unknown key `foo`. -/
theorem normalize_unknown_keys_passthrough_witness :
    (((([("foo", JSValue.num (.finite 1))] : JSObj)).map Prod.fst).Nodup ∧
        "foo" ∉ documentedStatusKeys) ∧
      objGet (normalizeScraperStatus (.obj [("foo", .num (.finite 1))]) "kinox") "foo"
        = objGet [("foo", JSValue.num (.finite 1))] "foo" :=
  ⟨⟨by decide, by decide⟩,
    normalize_unknown_keys_passthrough [("foo", .num (.finite 1))] "kinox" "foo"
      (by decide) (by decide)⟩

/-- The raw kinox payload of the C8 scenario. -/
def kinoxScenarioRaw : JSValue :=
  .obj [("running", .bool true), ("current_page", .num (.finite 4)),
    ("next_page", .num (.finite 5))]

/-- The normalized kinox status of the C8 scenario, as produced by
`normalizeScraperStatuses` over the payload map for the registered
provider `kinox`. -/
def kinoxScenarioStatus : JSObj :=
  statusLookup (normalizeScraperStatuses ["kinox"] (.obj [("kinox", kinoxScenarioRaw)])) "kinox"

/-- C8 counterexample: for the scenario payload the normalized status
carries `progress_mode = "idle"` — the normalizer fills the absent
`progress_mode` with its base default `'idle'`, a truthy string, so the
`'indeterminate'` fallback of `updateSingleScraperUI` never applies and
the computed progress mode is `idle`, not `indeterminate` as claimed. -/
theorem scenario_kinox_progress_mode_cex :
    uiProgressMode kinoxScenarioStatus = .str "idle" ∧
      JSValue.str "idle" ≠ JSValue.str "indeterminate" := by
  constructor
  · rfl
  · intro h
    injection h with h2
    exact absurd h2 (by decide)

/-- How the awaited `fetch` of `fetchScraperStatus` settled: a 2xx
response with a JSON payload, a non-2xx response (which the source turns
into a thrown error), or a rejected fetch. -/
inductive FetchOutcome where
  | ok (payload : JSValue)
  | httpError
  | rejected

/-- Whether the outcome is a failure (fetch rejected or non-2xx). -/
def fetchOutcomeFails : FetchOutcome → Bool
  | .ok _ => false
  | .httpError => true
  | .rejected => true

/-- `Object.values(currentScraperStatuses).some((status) => status?.running)`. -/
def anyScraperRunning (statuses : List (String × JSObj)) : Bool :=
  statuses.any (fun kv => (objGet kv.2 "running").toBool)

/-- Embedding of `fetchScraperStatus` (source lines 1136 to 1158):
returns the new `currentScraperStatuses` and whether a toast was shown.
The function is total — the `try`/`catch` absorbs every failure, which
is the no-throw half of the claim — and shows the failure toast only for
a manual poll. -/
def fetchScraperStatus (registered : List String) (current : List (String × JSObj))
    (outcome : FetchOutcome) (manual : Bool) : List (String × JSObj) × Bool :=
  if registered.isEmpty then (current, false)
  else
    match outcome with
    | .ok payload =>
        if (jsMember payload "success").toBool && (jsMember payload "status").toBool then
          (normalizeScraperStatuses registered (jsMember payload "status"), false)
        else (current, manual)
    | .httpError => (current, manual)
    | .rejected => (current, manual)

/-- The re-arm delay computed after a poll tick (source line 1131):
short while anything is running, long otherwise. -/
def nextPollDelay (statuses : List (String × JSObj)) : ℕ :=
  if anyScraperRunning statuses then 2000 else 8000

/-- One scheduler tick (the timer callback of
`scheduleScraperStatusPoll`, source lines 1129 to 1133): run the
non-manual status fetch, then compute the next delay from the resulting
`currentScraperStatuses`. -/
def pollTick (registered : List String) (current : List (String × JSObj))
    (outcome : FetchOutcome) : List (String × JSObj) × ℕ :=
  let st := (fetchScraperStatus registered current outcome false).1
  (st, nextPollDelay st)

/-- The status map left by a successful earlier poll that reported the
kinox job running. -/
def runningKinoxStatuses : List (String × JSObj) :=
  normalizeScraperStatuses ["kinox"] (.obj [("kinox", .obj [("running", .bool true)])])

/-- C5 counterexample: when the last applied statuses still report a job
running, a failed poll re-arms at the short 2-second interval, not the
claimed long 8-second interval — the failure leaves
`currentScraperStatuses` unchanged and the delay is computed from that
stale map, so failure is not treated like the not-running case. -/
theorem poll_failure_rearm_cex :
    (pollTick ["kinox"] runningKinoxStatuses .rejected).2 = 2000 ∧ (2000 : ℕ) ≠ 8000 :=
  ⟨rfl, by decide⟩

/-- C5 (amended): a failed poll fetch never escapes the scheduler (the
embedded fetch handler is total and leaves the state unchanged), shows a
notification exactly when the poll was manual (and some controller is
registered), and re-arms at the interval computed from the unchanged,
previously applied statuses: 8 seconds if none of them was running, but
2 seconds if a previous poll left a job marked running. -/
theorem poll_failure_amended (registered : List String)
    (current : List (String × JSObj)) (outcome : FetchOutcome) (manual : Bool)
    (hfail : fetchOutcomeFails outcome = true) (hreg : registered.isEmpty = false) :
    fetchScraperStatus registered current outcome manual = (current, manual) ∧
    pollTick registered current outcome
      = (current, if anyScraperRunning current then 2000 else 8000) := by
  cases outcome with
  | ok p => simp [fetchOutcomeFails] at hfail
  | httpError => simp [fetchScraperStatus, hreg, pollTick, nextPollDelay]
  | rejected => simp [fetchScraperStatus, hreg, pollTick, nextPollDelay]

/-- Witness for the amended poll-failure theorem at a concrete rejected
manual poll with one registered provider and no prior statuses. -/
theorem poll_failure_amended_witness :
    (fetchOutcomeFails .rejected = true ∧ (["kinox"] : List String).isEmpty = false) ∧
      (fetchScraperStatus ["kinox"] [] .rejected true = ([], true) ∧
        pollTick ["kinox"] [] .rejected = ([], if anyScraperRunning [] then 2000 else 8000)) :=
  ⟨⟨rfl, rfl⟩, poll_failure_amended ["kinox"] [] .rejected true rfl rfl⟩

/-- The search-session state touched by `performSearch`: the handle
counter models allocation of `AbortController` objects, `current` the
module variable `searchAbortController`, `aborted` the set of handles
whose signal has been aborted, `query` the variable
`currentSearchQuery`; `renders` records `renderSearchResults` calls and
`messages` records `renderSearchMessage` calls (overlay rendering is
presentation and not modelled). -/
structure SearchState where
  nextHandle : ℕ
  current : Option ℕ
  aborted : List ℕ
  query : String
  renders : List (List JSValue)
  messages : List String

/-- The synchronous prefix of `performSearch(query)` up to the `await`
(source lines 560 to 577): guard on the trimmed length, abort the
previous controller, install a fresh one.  Returns the handle of the
issued request, or `none` when no request is issued. -/
def performSearchIssue (q : String) (st : SearchState) : Option ℕ × SearchState :=
  let trimmed := trimString q
  if trimmed.length < 2 then (none, st)
  else
    let aborted2 :=
      match st.current with
      | some h => h :: st.aborted
      | none => st.aborted
    (some st.nextHandle,
      { st with
          nextHandle := st.nextHandle + 1
          current := some st.nextHandle
          aborted := aborted2
          query := trimmed })

/-- How the awaited `callApi` of `performSearch` completed. -/
inductive SearchOutcome where
  | resolvedWith (response : JSValue)
  | abortError
  | otherError

/-- The continuation of `performSearch` after the `await` (source lines
578 to 616): the aborted-signal early return, the success/failure
rendering, the `AbortError` swallowing in `catch`, and the `finally`
block clearing `searchAbortController` when it still holds this
request's controller. -/
def performSearchComplete (h : ℕ) (trimmed : String) (outcome : SearchOutcome)
    (st : SearchState) : SearchState :=
  let stAfter :=
    match outcome with
    | .resolvedWith resp =>
        if h ∈ st.aborted then st
        else if ¬ (jsMember resp "success").toBool then
          { st with messages := st.messages ++ ["Suche fehlgeschlagen."] }
        else
          let results :=
            match jsMember resp "results" with
            | .arr es => es
            | _ => []
          if results.isEmpty then
            { st with messages := st.messages ++ ["Keine Ergebnisse für " ++ trimmed] }
          else { st with renders := st.renders ++ [results] }
    | .abortError => st
    | .otherError => { st with messages := st.messages ++ ["Suche fehlgeschlagen."] }
  if stAfter.current = some h then { stAfter with current := none } else stAfter

/-- C2: when a second search R2 is issued before R1 completes, issuing
R2 aborts R1's controller, and R1's late completion — whether its fetch
resolves with a response value or rejects with `AbortError` — changes
nothing: no results are rendered, no message is shown, and the current
controller stays R2's.  Stale completions are discarded silently. -/
theorem search_race_stale_discarded
    (st st1 st2 : SearchState) (q1 q2 : String) (h1 h2 : ℕ) (resp : JSValue)
    (hi1 : performSearchIssue q1 st = (some h1, st1))
    (hi2 : performSearchIssue q2 st1 = (some h2, st2)) :
    h1 ∈ st2.aborted ∧
    performSearchComplete h1 (trimString q1) (.resolvedWith resp) st2 = st2 ∧
    performSearchComplete h1 (trimString q1) .abortError st2 = st2 := by
  by_cases hlen1 : (trimString q1).length < 2
  · simp [performSearchIssue, hlen1] at hi1
  by_cases hlen2 : (trimString q2).length < 2
  · simp [performSearchIssue, hlen2] at hi2
  simp only [performSearchIssue, if_neg hlen1, Prod.mk.injEq, Option.some.injEq] at hi1
  simp only [performSearchIssue, if_neg hlen2, Prod.mk.injEq, Option.some.injEq] at hi2
  obtain ⟨hh1, hst1⟩ := hi1
  obtain ⟨hh2, hst2⟩ := hi2
  subst hst1
  subst hst2
  subst hh1
  subst hh2
  refine ⟨by simp, ?_, ?_⟩
  · simp [performSearchComplete]
  · simp [performSearchComplete]

/-- Witness for the search race theorem: two concrete searches issued
back to back from the pristine state; R1 gets handle 0, R2 handle 1. -/
theorem search_race_stale_discarded_witness :
    (performSearchIssue "ab" ⟨0, none, [], "", [], []⟩
        = (some 0, ⟨1, some 0, [], "ab", [], []⟩) ∧
      performSearchIssue "cd" ⟨1, some 0, [], "ab", [], []⟩
        = (some 1, ⟨2, some 1, [0], "cd", [], []⟩)) ∧
    (0 ∈ (⟨2, some 1, [0], "cd", [], []⟩ : SearchState).aborted ∧
      performSearchComplete 0 (trimString "ab")
          (.resolvedWith (.obj [("success", .bool true), ("results", .arr [.str "r"])]))
          ⟨2, some 1, [0], "cd", [], []⟩
        = ⟨2, some 1, [0], "cd", [], []⟩ ∧
      performSearchComplete 0 (trimString "ab") .abortError ⟨2, some 1, [0], "cd", [], []⟩
        = ⟨2, some 1, [0], "cd", [], []⟩) :=
  ⟨⟨rfl, rfl⟩,
    search_race_stale_discarded ⟨0, none, [], "", [], []⟩ ⟨1, some 0, [], "ab", [], []⟩
      ⟨2, some 1, [0], "cd", [], []⟩ "ab" "cd" 0 1
      (.obj [("success", .bool true), ("results", .arr [.str "r"])]) rfl rfl⟩

/-- One entry of `refreshScraperSettingsUi` (source lines 1472 to 1478):
for the next-page input of `provider` holding `value`, compute the
mirrored value from `currentSettings.scrapers`, and assign it unless the
input is the document's active element.  `active` names the provider
whose input is focused, if any. -/
def refreshScraperSettingsEntry (settingsScrapers : JSValue) (active : Option String)
    (provider : String) (value : JSValue) : JSValue :=
  let providerSettings :=
    if (jsMember settingsScrapers provider).toBool then jsMember settingsScrapers provider
    else .obj []
  let nextValue := (jsMember providerSettings "next_page").toNumber
  if active = some provider then value
  else
    match nextValue with
    | .finite q => if 0 < q then .num (.finite q) else .str ""
    | .nan => .str ""

/-- Embedding of the next-page half of `refreshScraperSettingsUi` over
the map of next-page inputs (provider, current value). -/
def refreshScraperSettingsUi (settingsScrapers : JSValue) (active : Option String)
    (inputs : List (String × JSValue)) : List (String × JSValue) :=
  inputs.map (fun pv => (pv.1, refreshScraperSettingsEntry settingsScrapers active pv.1 pv.2))

/-- C9: a refresh never overwrites the focused next-page input — its
value is returned unchanged whatever the settings mirror holds — while a
non-focused input's new value is independent of its previous value (it
is overwritten with the mirrored value); on the inputs map the refresh
leaves a focused entry literally in place. -/
theorem refresh_focused_input_preserved (settingsScrapers : JSValue)
    (active : Option String) (p p2 : String) (v w w2 : JSValue)
    (inputs : List (String × JSValue))
    (hfoc : active = some p) (hne : p2 ≠ p) :
    refreshScraperSettingsEntry settingsScrapers active p v = v ∧
    refreshScraperSettingsEntry settingsScrapers active p2 w
      = refreshScraperSettingsEntry settingsScrapers active p2 w2 ∧
    refreshScraperSettingsUi settingsScrapers active ((p, v) :: inputs)
      = (p, v) :: refreshScraperSettingsUi settingsScrapers active inputs := by
  subst hfoc
  refine ⟨?_, ?_, ?_⟩
  · simp [refreshScraperSettingsEntry]
  · simp [refreshScraperSettingsEntry, Ne.symm hne]
  · simp [refreshScraperSettingsUi, refreshScraperSettingsEntry]

/-- Witness for the focused-input theorem: the kinox input is focused
and keeps its half-typed value `17` while the serien input ignores its
previous value. -/
theorem refresh_focused_input_preserved_witness :
    ((some "kinox" : Option String) = some "kinox" ∧ "serien" ≠ "kinox") ∧
      (refreshScraperSettingsEntry
          (.obj [("kinox", .obj [("next_page", .num (.finite 7))])])
          (some "kinox") "kinox" (.str "17") = .str "17" ∧
        refreshScraperSettingsEntry
            (.obj [("kinox", .obj [("next_page", .num (.finite 7))])])
            (some "kinox") "serien" (.str "a")
          = refreshScraperSettingsEntry
              (.obj [("kinox", .obj [("next_page", .num (.finite 7))])])
              (some "kinox") "serien" (.str "b") ∧
        refreshScraperSettingsUi (.obj [("kinox", .obj [("next_page", .num (.finite 7))])])
            (some "kinox") [("kinox", .str "17")]
          = ("kinox", JSValue.str "17")
              :: refreshScraperSettingsUi
                  (.obj [("kinox", .obj [("next_page", .num (.finite 7))])])
                  (some "kinox") []) :=
  ⟨⟨rfl, by decide⟩,
    refresh_focused_input_preserved
      (.obj [("kinox", .obj [("next_page", .num (.finite 7))])])
      (some "kinox") "kinox" "serien" (.str "17") (.str "a") (.str "b") []
      rfl (by decide)⟩

/-- JavaScript strict equality `===` on the primitive value forms the
program compares (`NaN === NaN` is false; reference equality of distinct
objects and arrays is not modelled and compares false). -/
def jsStrictEq : JSValue → JSValue → Bool
  | .null, .null => true
  | .undef, .undef => true
  | .bool a, .bool b => a == b
  | .num (.finite x), .num (.finite y) => x == y
  | .num _, .num _ => false
  | .str a, .str b => a == b
  | _, _ => false

/-- JavaScript strict equality between a number and a string: always
false (no coercion).  The comparator's missing-value branches evaluate
`direction === 'asc'` where `direction` is the number `1` or `-1`, so
this is the test they perform. -/
def jsStrictEqNumStr (_ : ℚ) (_ : String) : Bool := false

/-- A catalog item, with the fields the comparator and the runtime
backfill read.  Field values stay raw JavaScript values. -/
structure Movie where
  id : JSValue
  title : JSValue
  rating : JSValue
  release_date : JSValue
  created_at : JSValue
  runtime : JSValue

/-- The id-to-runtime map `allMoviesRuntimeCache`: keys are the finite
numbers the backfill stores, values are the written `runtime` — a
positive number or `null` (`none`). -/
def RuntimeCache := List (ℚ × Option ℚ)

/-- `allMoviesRuntimeCache.get(id)`: `none` when the key is absent
(JavaScript `undefined`); a non-numeric or NaN id never matches a stored
key (`Map` uses SameValueZero). -/
def cacheGet (cache : RuntimeCache) (id : JSValue) : Option (Option ℚ) :=
  match id with
  | .num (.finite q) => (cache.find? (fun kv => kv.1 == q)).map Prod.snd
  | _ => none

/-- `allMoviesRuntimeCache.set(id, value)`. -/
def cacheSet (cache : RuntimeCache) (q : ℚ) (r : Option ℚ) : RuntimeCache :=
  match cache with
  | [] => [(q, r)]
  | kv :: rest => if kv.1 = q then (q, r) :: rest else kv :: cacheSet rest q r

/-- A cached runtime as the JavaScript value `cache.get(id)` evaluates
to: absent reads as `undefined`, a stored `null` as `null`. -/
def cachedRuntimeJS (cache : RuntimeCache) (id : JSValue) : JSValue :=
  match cacheGet cache id with
  | none => (.undef)
  | some none => .null
  | some (some r) => .num (.finite r)

/-- Embedding of `getMovieRuntime(movie)` (source lines 1675 to 1686):
the item's own runtime if it coerces to a finite positive number, else
the cached value if that coerces to a finite positive number, else
`null`.  `Number(null)` is `0`, so a cached `null` fails the positive
test exactly like an absent entry. -/
def getMovieRuntime (cache : RuntimeCache) (movie : Movie) : Option ℚ :=
  let fromCache :=
    match (cachedRuntimeJS cache movie.id).toNumber with
    | .finite c => if 0 < c then some c else none
    | .nan => none
  match movie.runtime.toNumber with
  | .finite r => if 0 < r then some r else fromCache
  | .nan => fromCache

/-- A runtime lookup result as the JavaScript value `getMovieRuntime`
returns (`null` or a number). -/
def optRuntimeJS : Option ℚ → JSValue
  | none => .null
  | some r => .num (.finite r)

/-- The `compareNumbers` helper of `compareAllMovies` (source lines 1691
to 1709).  `direction` is the numeric `±1` computed on line 1689; the
missing-value branches test `direction === 'asc'`, a number-to-string
strict equality. -/
def compareNumbers (direction : ℚ) (aValue bValue : JSValue) : ℚ :=
  match aValue.toNumber, bValue.toNumber with
  | .nan, .nan => 0
  | .nan, .finite _ => if jsStrictEqNumStr direction "asc" then 1 else -1
  | .finite _, .nan => if jsStrictEqNumStr direction "asc" then -1 else 1
  | .finite first, .finite second =>
      if first = second then 0 else (first - second) * direction

/-- `new Date(value).getTime()` guarded by the truthiness test of
`compareDates`: a falsy value yields NaN; date-string parsing is the
environment's and is passed in as `dateParse`. -/
def dateTimeOf (dateParse : String → JSNumber) (v : JSValue) : JSNumber :=
  if v.toBool then
    match v with
    | .str s => dateParse s
    | .num n => n
    | _ => .nan
  else .nan

/-- The `compareDates` helper of `compareAllMovies` (source lines 1711
to 1729), with the same always-false `direction === 'asc'` test in its
missing-value branches. -/
def compareDates (dateParse : String → JSNumber) (direction : ℚ)
    (aValue bValue : JSValue) : ℚ :=
  match dateTimeOf dateParse aValue, dateTimeOf dateParse bValue with
  | .nan, .nan => 0
  | .nan, .finite _ => if jsStrictEqNumStr direction "asc" then 1 else -1
  | .finite _, .nan => if jsStrictEqNumStr direction "asc" then -1 else 1
  | .finite first, .finite second =>
      if first = second then 0 else (first - second) * direction

/-- `typeof t === 'string' ? t : ''`. -/
def jsTitleString : JSValue → String
  | .str s => s
  | _ => ""

/-- Embedding of `compareAllMovies(a, b)` (source lines 1688 to 1776),
parameterised by the module state `allMoviesSort`/`allMoviesDirection`,
the locale collator and the date parser. -/
def compareAllMovies (sortKey direction : String) (collator : String → String → ℚ)
    (dateParse : String → JSNumber) (cache : RuntimeCache) (a b : Movie) : ℚ :=
  let dir : ℚ := if direction = "asc" then 1 else -1
  if sortKey = "title" then
    let result := collator (jsTitleString a.title) (jsTitleString b.title)
    if result = 0 then 0 else result * (if direction = "asc" then 1 else -1)
  else
    let compareResult :=
      if sortKey = "runtime" then
        compareNumbers dir (optRuntimeJS (getMovieRuntime cache a))
          (optRuntimeJS (getMovieRuntime cache b))
      else if sortKey = "release" then compareDates dateParse dir a.release_date b.release_date
      else if sortKey = "added" then compareDates dateParse dir a.created_at b.created_at
      else compareNumbers dir a.rating b.rating
    if compareResult ≠ 0 then compareResult
    else collator (jsTitleString a.title) (jsTitleString b.title)

/-- `ensureRuntimeForMovies`' id cleanup (source lines 1875 to 1881):
numeric coercion, keep finite positives. -/
def validRuntimeIds (movieIds : List JSValue) : List ℚ :=
  (movieIds.map JSValue.toNumber).filterMap
    (fun n =>
      match n with
      | .finite q => if 0 < q then some q else none
      | .nan => none)

/-- `Array.from(new Set(...))`: drop duplicates keeping first
occurrences in order. -/
def dedupFirst : List ℚ → List ℚ
  | [] => []
  | x :: xs => x :: (dedupFirst xs).filter (fun y => y != x)

/-- Recursion worker for the 25-id batching: the fuel, always at least
the list length at the call sites, makes the recursion structural. -/
def chunkRuntimeIdsGo (fuel : ℕ) (l : List ℚ) : List (List ℚ) :=
  match fuel, l with
  | _, [] => []
  | 0, _ :: _ => []
  | fuel + 1, x :: xs => ((x :: xs).take 25) :: chunkRuntimeIdsGo fuel ((x :: xs).drop 25)

/-- The 25-id batching of `ensureRuntimeForMovies` (source lines 1886
to 1887, `ALL_MOVIES_RUNTIME_CHUNK_SIZE = 25`): the slices
`uniqueIds.slice(i, i + 25)` for `i = 0, 25, 50, ...`. -/
def chunkRuntimeIds (l : List ℚ) : List (List ℚ) :=
  chunkRuntimeIdsGo l.length l

/-- `allMovies.find((movie) => movie.id === id)` followed by
`target.runtime = normalizedRuntime`: update the first strictly-matching
item's runtime. -/
def setMovieRuntimeFirst (movies : List Movie) (idq : ℚ) (r : JSValue) : List Movie :=
  match movies with
  | [] => []
  | m :: rest =>
      if jsStrictEq m.id (.num (.finite idq)) then { m with runtime := r } :: rest
      else m :: setMovieRuntimeFirst rest idq r

/-- The per-item processing of a runtime batch response (source lines
1895 to 1906): coerce id and runtime, normalize the runtime to a
positive number or `null`, then write cache and item. -/
def processRuntimeItems (items : List JSValue) (cache : RuntimeCache)
    (movies : List Movie) : RuntimeCache × List Movie :=
  items.foldl
    (fun acc item =>
      let normalized : Option ℚ :=
        match (jsMember item "runtime").toNumber with
        | .finite r => if 0 < r then some r else none
        | .nan => none
      match (jsMember item "id").toNumber with
      | .finite idq =>
          (cacheSet acc.1 idq normalized,
            setMovieRuntimeFirst acc.2 idq (optRuntimeJS normalized))
      | .nan => acc)
    (cache, movies)

/-- The response guard of `ensureRuntimeForMovies` (source line 1894):
process items only for `response?.success` with an array `items`. -/
def processRuntimeResponse (resp : JSValue) (cache : RuntimeCache)
    (movies : List Movie) : RuntimeCache × List Movie :=
  if (jsMember resp "success").toBool then
    match jsMember resp "items" with
    | .arr items => processRuntimeItems items cache movies
    | _ => (cache, movies)
  else (cache, movies)

/-- One iteration of the batch loop of `ensureRuntimeForMovies`: issue
the chunk's request, and on a successful response process its items (a
rejected request is caught and processes nothing). -/
def runtimeChunkStep (respond : List ℚ → Option JSValue)
    (acc : List (List ℚ) × RuntimeCache × List Movie) (chunk : List ℚ) :
    List (List ℚ) × RuntimeCache × List Movie :=
  match respond chunk with
  | some resp =>
      let processed := processRuntimeResponse resp acc.2.1 acc.2.2
      (acc.1 ++ [chunk], processed.1, processed.2)
  | none => (acc.1 ++ [chunk], acc.2.1, acc.2.2)

/-- Embedding of `ensureRuntimeForMovies(movieIds)` (source lines 1874
to 1912).  `respond` is the network collaborator: `none` models a
rejected `callApi` (caught per chunk, the loop continues).  Returns the
list of issued batch requests together with the final cache and item
list. -/
def ensureRuntimeForMovies (respond : List ℚ → Option JSValue) (movieIds : List JSValue)
    (cache : RuntimeCache) (movies : List Movie) :
    List (List ℚ) × RuntimeCache × List Movie :=
  let uniqueIds := dedupFirst (validRuntimeIds movieIds)
  if uniqueIds.isEmpty then ([], cache, movies)
  else (chunkRuntimeIds uniqueIds).foldl (runtimeChunkStep respond) ([], cache, movies)

/-- The missing-runtime scan of `applyAllMoviesSort` (source lines 1927
to 1929): ids of items whose `getMovieRuntime` is `null`. -/
def missingRuntimeIds (cache : RuntimeCache) (movies : List Movie) : List JSValue :=
  (movies.filter (fun m => (getMovieRuntime cache m).isNone)).map Movie.id

/-- The post-backfill write-back of `applyAllMoviesSort` (source lines
1939 to 1944): copy every now-known runtime onto its item. -/
def applyRuntimeWriteback (cache : RuntimeCache) (movies : List Movie) : List Movie :=
  movies.map
    (fun m =>
      match getMovieRuntime cache m with
      | some r => { m with runtime := .num (.finite r) }
      | none => m)

/-- The runtime branch of `applyAllMoviesSort` (source lines 1926 to
1945): backfill the missing runtimes, then write the known ones back.
Returns the issued batch requests with the new cache and items. -/
def runtimeSortBackfill (respond : List ℚ → Option JSValue) (cache : RuntimeCache)
    (movies : List Movie) : List (List ℚ) × RuntimeCache × List Movie :=
  let missing := missingRuntimeIds cache movies
  if missing.isEmpty then ([], cache, applyRuntimeWriteback cache movies)
  else
    let result := ensureRuntimeForMovies respond missing cache movies
    (result.1, result.2.1, applyRuntimeWriteback result.2.1 result.2.2)

theorem chunkRuntimeIdsGo_flatten (fuel : ℕ) :
    ∀ l : List ℚ, l.length ≤ fuel → (chunkRuntimeIdsGo fuel l).flatten = l := by
  induction fuel with
  | zero =>
      intro l hl
      rw [Nat.le_zero, List.length_eq_zero] at hl
      subst hl
      rfl
  | succ n ih =>
      intro l hl
      cases l with
      | nil => rfl
      | cons x xs =>
          simp only [chunkRuntimeIdsGo, List.flatten_cons]
          rw [ih ((x :: xs).drop 25)
            (by simp only [List.length_drop, List.length_cons] at hl ⊢; omega)]
          exact List.take_append_drop 25 (x :: xs)

theorem chunkRuntimeIds_flatten (l : List ℚ) : (chunkRuntimeIds l).flatten = l :=
  chunkRuntimeIdsGo_flatten l.length l le_rfl

theorem chunkRuntimeIdsGo_length (fuel : ℕ) :
    ∀ l : List ℚ, l.length ≤ fuel →
      (chunkRuntimeIdsGo fuel l).length = (l.length + 24) / 25 := by
  induction fuel with
  | zero =>
      intro l hl
      rw [Nat.le_zero, List.length_eq_zero] at hl
      subst hl
      rfl
  | succ n ih =>
      intro l hl
      cases l with
      | nil => rfl
      | cons x xs =>
          simp only [chunkRuntimeIdsGo, List.length_cons]
          rw [ih ((x :: xs).drop 25)
            (by simp only [List.length_drop, List.length_cons] at hl ⊢; omega)]
          simp only [List.length_drop, List.length_cons]
          omega

theorem chunkRuntimeIds_length (l : List ℚ) :
    (chunkRuntimeIds l).length = (l.length + 24) / 25 :=
  chunkRuntimeIdsGo_length l.length l le_rfl

theorem chunkRuntimeIdsGo_mem_length (fuel : ℕ) :
    ∀ l c : List ℚ, c ∈ chunkRuntimeIdsGo fuel l → c.length ≤ 25 := by
  induction fuel with
  | zero =>
      intro l c hc
      cases l <;> simp [chunkRuntimeIdsGo] at hc
  | succ n ih =>
      intro l c hc
      cases l with
      | nil => simp [chunkRuntimeIdsGo] at hc
      | cons x xs =>
          rw [chunkRuntimeIdsGo] at hc
          rcases List.mem_cons.mp hc with h | h
          · subst h
            simp [List.length_take]
          · exact ih _ c h

theorem chunkRuntimeIds_mem_length (l : List ℚ) (c : List ℚ) (hc : c ∈ chunkRuntimeIds l) :
    c.length ≤ 25 :=
  chunkRuntimeIdsGo_mem_length l.length l c hc

theorem validRuntimeIds_map (ids : List ℚ) (h : ∀ q ∈ ids, 0 < q) :
    validRuntimeIds (ids.map (fun q => .num (.finite q))) = ids := by
  induction ids with
  | nil => rfl
  | cons x xs ih =>
      have hx := h x (List.mem_cons_self x xs)
      have ihx := ih (fun q hq => h q (List.mem_cons_of_mem _ hq))
      simp only [validRuntimeIds, List.map_cons, List.filterMap_cons, List.filterMap_map]
        at ihx ⊢
      simp [JSValue.toNumber, hx, ihx]

theorem dedupFirst_subset (l : List ℚ) : ∀ y ∈ dedupFirst l, y ∈ l := by
  induction l with
  | nil => intro y hy; simp [dedupFirst] at hy
  | cons x xs ih =>
      intro y hy
      rw [dedupFirst] at hy
      rcases List.mem_cons.mp hy with he | hmem
      · exact he ▸ List.mem_cons_self x xs
      · exact List.mem_cons_of_mem _ (ih y (List.mem_of_mem_filter hmem))

theorem dedupFirst_of_nodup (l : List ℚ) (h : l.Nodup) : dedupFirst l = l := by
  induction l with
  | nil => rfl
  | cons x xs ih =>
      rw [List.nodup_cons] at h
      rw [dedupFirst, ih h.2]
      congr 1
      apply List.filter_eq_self.mpr
      intro y hy
      simp only [bne_iff_ne, ne_eq, decide_eq_true_eq]
      intro he
      exact h.1 (he ▸ hy)

theorem runtimeChunkStep_fold_requests (respond : List ℚ → Option JSValue)
    (chunks : List (List ℚ)) (acc : List (List ℚ) × RuntimeCache × List Movie) :
    (chunks.foldl (runtimeChunkStep respond) acc).1 = acc.1 ++ chunks := by
  induction chunks generalizing acc with
  | nil => simp
  | cons ch rest ih =>
      rw [List.foldl_cons, ih]
      cases hr : respond ch <;> simp [runtimeChunkStep, hr]

theorem compareNumbers_nan_finite (dir : ℚ) (a b : JSValue) (qb : ℚ)
    (ha : a.toNumber = .nan) (hb : b.toNumber = .finite qb) :
    compareNumbers dir a b = -1 := by
  simp [compareNumbers, ha, hb, jsStrictEqNumStr]

theorem compareNumbers_finite_nan (dir : ℚ) (a b : JSValue) (qa : ℚ)
    (ha : a.toNumber = .finite qa) (hb : b.toNumber = .nan) :
    compareNumbers dir a b = 1 := by
  simp [compareNumbers, ha, hb, jsStrictEqNumStr]

theorem compareNumbers_finite_finite (dir : ℚ) (a b : JSValue) (qa qb : ℚ)
    (ha : a.toNumber = .finite qa) (hb : b.toNumber = .finite qb) :
    compareNumbers dir a b = if qa = qb then 0 else (qa - qb) * dir := by
  simp [compareNumbers, ha, hb]

theorem compareDates_nan_finite (dp : String → JSNumber) (dir : ℚ) (a b : JSValue) (qb : ℚ)
    (ha : dateTimeOf dp a = .nan) (hb : dateTimeOf dp b = .finite qb) :
    compareDates dp dir a b = -1 := by
  simp [compareDates, ha, hb, jsStrictEqNumStr]

theorem compareDates_finite_nan (dp : String → JSNumber) (dir : ℚ) (a b : JSValue) (qa : ℚ)
    (ha : dateTimeOf dp a = .finite qa) (hb : dateTimeOf dp b = .nan) :
    compareDates dp dir a b = 1 := by
  simp [compareDates, ha, hb, jsStrictEqNumStr]

/-- The thirty ids 1 to 30 of the C6 scenario. -/
def thirtyIds : List ℚ := (List.range 30).map (fun i : ℕ => (i : ℚ) + 1)

theorem thirtyIds_nodup : thirtyIds.Nodup := by
  refine List.Nodup.map ?_ (List.nodup_range 30)
  intro a b hab
  have h2 : (a : ℚ) = b := by
    have h3 : ((a : ℚ) + 1) = (b : ℚ) + 1 := hab
    linarith
  exact_mod_cast h2

theorem thirtyIds_pos : ∀ q ∈ thirtyIds, 0 < q := by
  intro q hq
  rcases List.mem_map.mp hq with ⟨i, _, hi⟩
  subst hi
  positivity

/-- C6: a backfill over distinct valid (finite, positive) ids issues
exactly `ceil(n / 25)` batch requests, whose concatenation is the input
id list in order and each of which carries at most 25 ids; in
particular a backfill over the ids 1 to 30 issues exactly two batches
of 25 and 5 ids, whatever the responses are. -/
theorem runtime_backfill_batches (respond : List ℚ → Option JSValue) (cache : RuntimeCache)
    (movies : List Movie) (ids : List ℚ)
    (hnd : ids.Nodup) (hpos : ∀ q ∈ ids, 0 < q) :
    ((ensureRuntimeForMovies respond (ids.map (fun q => .num (.finite q))) cache movies).1.length
        = (ids.length + 24) / 25 ∧
      (ensureRuntimeForMovies respond (ids.map (fun q => .num (.finite q))) cache movies).1.flatten
        = ids ∧
      ∀ c ∈ (ensureRuntimeForMovies respond (ids.map (fun q => .num (.finite q))) cache movies).1,
        c.length ≤ 25) ∧
    ((ensureRuntimeForMovies respond (thirtyIds.map (fun q => .num (.finite q)))
        cache movies).1).map List.length = [25, 5] := by
  have key : ∀ (l : List ℚ), l.Nodup → (∀ q ∈ l, 0 < q) →
      (ensureRuntimeForMovies respond (l.map (fun q => .num (.finite q))) cache movies).1
        = chunkRuntimeIds l := by
    intro l hl hp
    rw [ensureRuntimeForMovies]
    simp only [validRuntimeIds_map l hp, dedupFirst_of_nodup l hl]
    by_cases hemp : l.isEmpty
    · rw [if_pos hemp]
      rw [List.isEmpty_iff] at hemp
      subst hemp
      rfl
    · rw [if_neg hemp, runtimeChunkStep_fold_requests]
      rfl
  refine ⟨⟨?_, ?_, ?_⟩, ?_⟩
  · rw [key ids hnd hpos, chunkRuntimeIds_length]
  · rw [key ids hnd hpos, chunkRuntimeIds_flatten]
  · rw [key ids hnd hpos]
    exact fun c hc => chunkRuntimeIds_mem_length ids c hc
  · rw [key thirtyIds thirtyIds_nodup thirtyIds_pos]
    rfl

/-- Witness for the batching theorem at the concrete list of ids 1 to
30: two batches are issued, carrying all thirty ids in order. -/
theorem runtime_backfill_batches_witness :
    (thirtyIds.Nodup ∧ ∀ q ∈ thirtyIds, 0 < q) ∧
    ((ensureRuntimeForMovies (fun _ => none) (thirtyIds.map (fun q => .num (.finite q)))
          [] []).1.map List.length = [25, 5]) :=
  ⟨⟨thirtyIds_nodup, thirtyIds_pos⟩,
    (runtime_backfill_batches (fun _ => none) [] [] thirtyIds thirtyIds_nodup thirtyIds_pos).2⟩

/-- The single catalog item of the C4 scenario: id 7, no runtime. -/
def c4Movie : Movie := ⟨.num (.finite 7), .str "M", .null, .null, .null, .undef⟩

/-- The C4 server collaborator: every runtime batch request succeeds and
reports runtime `null` for id 7. -/
def c4Respond : List ℚ → Option JSValue := fun _ =>
  some (.obj [("success", .bool true),
    ("items", .arr [.obj [("id", .num (.finite 7)), ("runtime", .null)]])])

/-- C4: evaluation of the code at the failing input.  The first
sort-by-runtime backfill requests id 7 and stores the server's `null`
in the cache — but a second sort-by-runtime over the same item issues a
request for id 7 again: `getMovieRuntime` reads the cached `null` via
`Number(cached) > 0`, which `Number(null) = 0` fails exactly like an
absent entry (`Map.has` is never consulted), so the item still counts
as missing its runtime. -/
theorem runtime_null_cached_but_refetched :
    (runtimeSortBackfill c4Respond [] [c4Movie]).1 = [[7]] ∧
    (runtimeSortBackfill c4Respond [] [c4Movie]).2.1 = [(7, none)] ∧
    (runtimeSortBackfill c4Respond
        (runtimeSortBackfill c4Respond [] [c4Movie]).2.1
        (runtimeSortBackfill c4Respond [] [c4Movie]).2.2).1 = [[7]] :=
  ⟨rfl, rfl, rfl⟩

/-- An item with no rating, no dates and no runtime. -/
def movieMissingAll : Movie := ⟨.num (.finite 1), .str "A", .undef, .null, .null, .undef⟩

/-- An item with every sort key present. -/
def moviePresentAll : Movie :=
  ⟨.num (.finite 2), .str "B", .num (.finite 5), .str "2020", .str "2021", .num (.finite 90)⟩

/-- A trivial collator (never reached by the counterexample's primary
comparisons). -/
def zeroCollator : String → String → ℚ := fun _ _ => 0

/-- A date parser for the concrete items above. -/
def cexDateParse : String → JSNumber :=
  fun s => if s = "2020" then .finite 100 else if s = "2021" then .finite 200 else .nan

/-- C3 counterexample: sorting by rating ascending, the comparator
returns `-1` for (missing, present) — placing the item with the missing
value before every present item — and it also returns `-1` under
descending.  The claim requires a missing value to sort last under both
directions, i.e. a positive comparator value here; the branch that was
meant to flip the sign tests `direction === 'asc'` with `direction`
being the number `±1`, which is always false. -/
theorem compare_missing_sorts_first_cex :
    compareAllMovies "popular" "asc" zeroCollator cexDateParse [] movieMissingAll moviePresentAll = -1 ∧
    compareAllMovies "popular" "desc" zeroCollator cexDateParse [] movieMissingAll moviePresentAll = -1 ∧
    compareAllMovies "popular" "asc" zeroCollator cexDateParse [] moviePresentAll movieMissingAll = 1 ∧
    ¬ (0 < (-1 : ℚ)) :=
  ⟨rfl, rfl, rfl, by norm_num⟩

/-- C3 (amended): for the rating and the two date keys, an item whose
key value is missing or non-finite is placed before — not after — every
item with a present value, under both sort directions (the comparator
returns `-1`/`1` with the missing item first, because the
`direction === 'asc'` test inside the missing-value branches compares a
number against a string and is always false).  For the runtime key a
missing runtime is `null`, which `Number` coerces to the finite `0`, so
it sorts as the value `0`: before every positive runtime ascending,
after every positive runtime descending. -/
theorem compare_missing_amended (direction : String) (collator : String → String → ℚ)
    (dateParse : String → JSNumber) (cache : RuntimeCache) (a b : Movie)
    (qr qd qc rt : ℚ)
    (hra : a.rating.toNumber = .nan) (hrb : b.rating.toNumber = .finite qr)
    (hda : dateTimeOf dateParse a.release_date = .nan)
    (hdb : dateTimeOf dateParse b.release_date = .finite qd)
    (hca : dateTimeOf dateParse a.created_at = .nan)
    (hcb : dateTimeOf dateParse b.created_at = .finite qc)
    (hta : getMovieRuntime cache a = none) (htb : getMovieRuntime cache b = some rt)
    (hrt : 0 < rt) :
    compareAllMovies "popular" direction collator dateParse cache a b = -1 ∧
    compareAllMovies "popular" direction collator dateParse cache b a = 1 ∧
    compareAllMovies "release" direction collator dateParse cache a b = -1 ∧
    compareAllMovies "release" direction collator dateParse cache b a = 1 ∧
    compareAllMovies "added" direction collator dateParse cache a b = -1 ∧
    compareAllMovies "added" direction collator dateParse cache b a = 1 ∧
    compareAllMovies "runtime" "asc" collator dateParse cache a b < 0 ∧
    0 < compareAllMovies "runtime" "desc" collator dateParse cache a b := by
  have h0 : (JSValue.toNumber (optRuntimeJS (getMovieRuntime cache a))) = .finite 0 := by
    rw [hta]; rfl
  have hr : (JSValue.toNumber (optRuntimeJS (getMovieRuntime cache b))) = .finite rt := by
    rw [htb]; rfl
  refine ⟨?_, ?_, ?_, ?_, ?_, ?_, ?_, ?_⟩
  · simp [compareAllMovies, compareNumbers_nan_finite _ _ _ _ hra hrb]
  · simp [compareAllMovies, compareNumbers_finite_nan _ _ _ _ hrb hra]
  · simp [compareAllMovies, compareDates_nan_finite _ _ _ _ _ hda hdb]
  · simp [compareAllMovies, compareDates_finite_nan _ _ _ _ _ hdb hda]
  · simp [compareAllMovies, compareDates_nan_finite _ _ _ _ _ hca hcb]
  · simp [compareAllMovies, compareDates_finite_nan _ _ _ _ _ hcb hca]
  · have hcmp := compareNumbers_finite_finite 1 (optRuntimeJS (getMovieRuntime cache a))
      (optRuntimeJS (getMovieRuntime cache b)) 0 rt h0 hr
    rw [if_neg (by linarith)] at hcmp
    simp only [compareAllMovies]
    norm_num [hcmp]
    rw [if_neg (show ¬("runtime" : String) = "title" by decide), if_neg hrt.ne']
    linarith
  · have hcmp := compareNumbers_finite_finite (-1) (optRuntimeJS (getMovieRuntime cache a))
      (optRuntimeJS (getMovieRuntime cache b)) 0 rt h0 hr
    rw [if_neg (by linarith)] at hcmp
    simp only [compareAllMovies]
    have hdir : (if ("desc" : String) = "asc" then (1 : ℚ) else -1) = -1 := by
      rw [if_neg (by decide)]
    simp only [hdir]
    norm_num [hcmp]
    rw [if_neg (show ¬("runtime" : String) = "title" by decide), if_neg hrt.ne']
    linarith

/-- Witness for the amended comparator theorem at the concrete pair
where the first item misses every key and the second has them all. -/
theorem compare_missing_amended_witness :
    (movieMissingAll.rating.toNumber = .nan ∧
      moviePresentAll.rating.toNumber = .finite 5 ∧
      dateTimeOf cexDateParse movieMissingAll.release_date = .nan ∧
      dateTimeOf cexDateParse moviePresentAll.release_date = .finite 100 ∧
      dateTimeOf cexDateParse movieMissingAll.created_at = .nan ∧
      dateTimeOf cexDateParse moviePresentAll.created_at = .finite 200 ∧
      getMovieRuntime [] movieMissingAll = none ∧
      getMovieRuntime [] moviePresentAll = some 90 ∧
      (0 : ℚ) < 90) ∧
    (compareAllMovies "popular" "asc" zeroCollator cexDateParse [] movieMissingAll moviePresentAll = -1 ∧
      compareAllMovies "popular" "asc" zeroCollator cexDateParse [] moviePresentAll movieMissingAll = 1 ∧
      compareAllMovies "release" "asc" zeroCollator cexDateParse [] movieMissingAll moviePresentAll = -1 ∧
      compareAllMovies "release" "asc" zeroCollator cexDateParse [] moviePresentAll movieMissingAll = 1 ∧
      compareAllMovies "added" "asc" zeroCollator cexDateParse [] movieMissingAll moviePresentAll = -1 ∧
      compareAllMovies "added" "asc" zeroCollator cexDateParse [] moviePresentAll movieMissingAll = 1 ∧
      compareAllMovies "runtime" "asc" zeroCollator cexDateParse [] movieMissingAll moviePresentAll < 0 ∧
      0 < compareAllMovies "runtime" "desc" zeroCollator cexDateParse [] movieMissingAll moviePresentAll) :=
  ⟨⟨rfl, rfl, rfl, rfl, rfl, rfl, rfl, rfl, by norm_num⟩,
    compare_missing_amended "asc" zeroCollator cexDateParse [] movieMissingAll moviePresentAll
      5 100 200 90 rfl rfl rfl rfl rfl rfl rfl rfl (by norm_num)⟩

/-- The loose inequality `v != null`: false exactly for `null` and
`undefined`. -/
def jsLooseNeqNull : JSValue → Bool
  | .null => false
  | .undef => false
  | _ => true

/-- The page size of the full grid view (`ALL_MOVIES_PAGE_SIZE`). -/
def allMoviesPageSize : ℕ := 100

/-- The retention test of `ensureAllMoviesLoaded` (source lines 1983 to
1994): keep an item only if it is truthy, has an array
`streaming_links`, and some truthy link has a `url` that is a string
with non-empty trim. -/
def hasPlayableLink (m : JSValue) : Bool :=
  m.toBool &&
    (match jsMember m "streaming_links" with
     | .arr links =>
         links.any (fun l =>
           l.toBool &&
             (match jsMember l "url" with
              | .str s => decide (0 < (trimString s).length)
              | _ => false))
     | _ => false)

/-- The catalog module state touched by `ensureAllMoviesLoaded`. -/
structure CatalogState where
  allMovies : List JSValue
  allMoviesSorted : List JSValue
  allMoviesPage : ℕ
  allMoviesLoaded : Bool
  allMoviesLoading : Bool
  currentMovieId : JSValue

/-- How the awaited `callApi('/api/movies')` settled. -/
inductive LoadOutcome where
  | ok (payload : JSValue)
  | rejected

/-- Embedding of `ensureAllMoviesLoaded` (source lines 1965 to 2019):
the early return when already loaded or loading, the filter-and-copy of
an array payload, the page jump to the current item, and the
empty-catalog settling for non-array payloads and rejections.  The
shallow copy `(movie) => ({...movie})` is value-identity in this
embedding; the trailing `applyAllMoviesSort` call is modelled separately
by `runtimeSortBackfill`. -/
def ensureAllMoviesLoaded (st : CatalogState) (outcome : LoadOutcome) : CatalogState :=
  if st.allMoviesLoaded || st.allMoviesLoading then st
  else
    match outcome with
    | .ok payload =>
        match payload with
        | .arr movies =>
            let filtered := (movies.filter hasPlayableLink).map (fun m => m)
            let page :=
              if jsLooseNeqNull st.currentMovieId then
                (match filtered.findIdx? (fun m => jsStrictEq (jsMember m "id") st.currentMovieId) with
                 | some idx => idx / allMoviesPageSize + 1
                 | none => 1)
              else 1
            { st with
                allMovies := filtered, allMoviesLoaded := true,
                allMoviesPage := page, allMoviesLoading := false }
        | _ =>
            { st with
                allMovies := [], allMoviesLoaded := true, allMoviesPage := 1,
                allMoviesLoading := false }
    | .rejected =>
        { st with
            allMovies := [], allMoviesLoaded := true, allMoviesPage := 1,
            allMoviesLoading := false }

/-- `getSortedMovies()` (source lines 1636 to 1638): the sorted array
when non-empty, else the raw catalog array. -/
def getSortedMovies (allMoviesSorted allMovies : List JSValue) : List JSValue :=
  if allMoviesSorted.length ≠ 0 then allMoviesSorted else allMovies

/-- The page slice of `renderAllMoviesPage` (source lines 1815 to 1816):
`movies.slice(start, start + ALL_MOVIES_PAGE_SIZE)`. -/
def moviesPageSlice (movies : List JSValue) (page : ℕ) : List JSValue :=
  (movies.drop ((page - 1) * allMoviesPageSize)).take allMoviesPageSize

/-- C10: after a load completes from a not-yet-loaded state, the loaded
flag is set, loading is cleared, and every retained catalog item passes
the playable-link test — for an array payload the catalog is exactly the
payload filtered by that test (each retained item the payload's own
value, the shallow copy being value-identity here), and on a rejected
load or a non-array payload the catalog settles to the empty array.
Consequently every permutation of the catalog (any sorted order) and
every page slice served from it, directly or through `getSortedMovies`,
contains only items with a playable link. -/
theorem catalog_load_invariant (st : CatalogState) (outcome : LoadOutcome)
    (hld : st.allMoviesLoaded = false) (hlg : st.allMoviesLoading = false) :
    (ensureAllMoviesLoaded st outcome).allMoviesLoaded = true ∧
    (ensureAllMoviesLoaded st outcome).allMoviesLoading = false ∧
    (∀ m ∈ (ensureAllMoviesLoaded st outcome).allMovies, hasPlayableLink m = true) ∧
    (∀ movies, outcome = .ok (.arr movies) →
        (ensureAllMoviesLoaded st outcome).allMovies = movies.filter hasPlayableLink) ∧
    (outcome = .rejected → (ensureAllMoviesLoaded st outcome).allMovies = []) ∧
    (∀ l page m, l.Perm (ensureAllMoviesLoaded st outcome).allMovies →
        m ∈ moviesPageSlice (getSortedMovies l (ensureAllMoviesLoaded st outcome).allMovies) page →
        hasPlayableLink m = true) := by
  have hguard : (st.allMoviesLoaded || st.allMoviesLoading) = false := by
    rw [hld, hlg]
    rfl
  have hmem : ∀ m ∈ (ensureAllMoviesLoaded st outcome).allMovies, hasPlayableLink m = true := by
    intro m hm
    unfold ensureAllMoviesLoaded at hm
    rw [hguard] at hm
    simp only [Bool.false_eq_true, if_false] at hm
    cases outcome with
    | rejected => simp at hm
    | ok payload =>
        cases payload with
        | arr movies =>
            simp only [List.map_id_fun, id] at hm
            simp only [List.mem_map, List.mem_filter] at hm
            rcases hm with ⟨m2, ⟨_, hkeep⟩, he⟩
            exact he ▸ hkeep
        | null => simp at hm
        | undef => simp at hm
        | bool b => simp at hm
        | num n => simp at hm
        | str s => simp at hm
        | obj fs => simp at hm
  refine ⟨?_, ?_, hmem, ?_, ?_, ?_⟩
  · unfold ensureAllMoviesLoaded
    rw [hguard]
    cases outcome with
    | rejected => rfl
    | ok payload => cases payload <;> rfl
  · unfold ensureAllMoviesLoaded
    rw [hguard]
    cases outcome with
    | rejected => rfl
    | ok payload => cases payload <;> rfl
  · intro movies ho
    subst ho
    unfold ensureAllMoviesLoaded
    rw [hguard]
    simp
  · intro ho
    subst ho
    unfold ensureAllMoviesLoaded
    rw [hguard]
    rfl
  · intro l page m hperm hm
    rw [getSortedMovies] at hm
    by_cases hl : l.length ≠ 0
    · rw [if_pos hl, moviesPageSlice] at hm
      have hm2 : m ∈ l := List.mem_of_mem_drop (List.mem_of_mem_take hm)
      exact hmem m (hperm.mem_iff.mp hm2)
    · rw [if_neg hl, moviesPageSlice] at hm
      exact hmem m (List.mem_of_mem_drop (List.mem_of_mem_take hm))

/-- A catalog item with one playable streaming link. -/
def playableItem : JSValue :=
  .obj [("id", .num (.finite 1)), ("streaming_links", .arr [.obj [("url", .str "https://x")]])]

/-- A catalog item whose only link has a blank url. -/
def unplayableItem : JSValue :=
  .obj [("id", .num (.finite 2)), ("streaming_links", .arr [.obj [("url", .str "  ")]])]

/-- Witness for the catalog load invariant: loading a two-item payload
from the pristine state retains exactly the playable item. -/
theorem catalog_load_invariant_witness :
    ((⟨[], [], 1, false, false, .null⟩ : CatalogState).allMoviesLoaded = false ∧
      (⟨[], [], 1, false, false, .null⟩ : CatalogState).allMoviesLoading = false) ∧
    ((ensureAllMoviesLoaded ⟨[], [], 1, false, false, .null⟩
        (.ok (.arr [playableItem, unplayableItem]))).allMoviesLoaded = true ∧
      (ensureAllMoviesLoaded ⟨[], [], 1, false, false, .null⟩
        (.ok (.arr [playableItem, unplayableItem]))).allMoviesLoading = false ∧
      (∀ m ∈ (ensureAllMoviesLoaded ⟨[], [], 1, false, false, .null⟩
          (.ok (.arr [playableItem, unplayableItem]))).allMovies, hasPlayableLink m = true) ∧
      (∀ movies, (LoadOutcome.ok (.arr [playableItem, unplayableItem])) = .ok (.arr movies) →
          (ensureAllMoviesLoaded ⟨[], [], 1, false, false, .null⟩
            (.ok (.arr [playableItem, unplayableItem]))).allMovies
            = movies.filter hasPlayableLink) ∧
      ((LoadOutcome.ok (.arr [playableItem, unplayableItem])) = .rejected →
          (ensureAllMoviesLoaded ⟨[], [], 1, false, false, .null⟩
            (.ok (.arr [playableItem, unplayableItem]))).allMovies = []) ∧
      (∀ l page m, l.Perm (ensureAllMoviesLoaded ⟨[], [], 1, false, false, .null⟩
            (.ok (.arr [playableItem, unplayableItem]))).allMovies →
          m ∈ moviesPageSlice (getSortedMovies l
              (ensureAllMoviesLoaded ⟨[], [], 1, false, false, .null⟩
                (.ok (.arr [playableItem, unplayableItem]))).allMovies) page →
          hasPlayableLink m = true)) :=
  ⟨⟨rfl, rfl⟩,
    catalog_load_invariant ⟨[], [], 1, false, false, .null⟩
      (.ok (.arr [playableItem, unplayableItem])) rfl rfl⟩

/-- C8 (amended): for the scenario payload the normalized kinox status
has `running = true`, `current_page = 4` and `next_page = 5`, and the
start button for kinox is disabled; but the progress mode computed by
`updateSingleScraperUI` is `idle` (the normalizer's default
`progress_mode`), not `indeterminate`. -/
theorem scenario_kinox_amended :
    objGet kinoxScenarioStatus "running" = .bool true ∧
    objGet kinoxScenarioStatus "current_page" = .num (.finite 4) ∧
    objGet kinoxScenarioStatus "next_page" = .num (.finite 5) ∧
    uiProgressMode kinoxScenarioStatus = .str "idle" ∧
    startButtonDisabled kinoxScenarioStatus = true :=
  ⟨rfl, rfl, rfl, rfl, rfl⟩
